import Mathlib

/-!
Verification development for the class-planner backend
(`backend/app/agents.py`, `backend/app/event_notifier.py`,
`backend/app/database.py`, `backend/app/main.py`,
`backend/app/template.py`).

The Python code is shallowly embedded: pure text manipulation becomes
functions on `String` (represented through `List Char` so that every
definition is kernel-computable), stateful code becomes explicit state
passing, wall-clock readings become explicit rational parameters, the
external LLM service becomes an `Except String String` oracle, and the
SQLite tables become Lean lists of rows.  Python `float` values that the
code parses from decimal text are modelled as exact rationals `ℚ`
(every concrete literal appearing in the code and its tests, e.g. 42.5
or 75.0, is exactly representable in binary floating point, so the
rational model agrees with CPython on those values).
-/

/- ===================== String primitives =====================
   Char-list implementations of the Python string operations used by
   the parsers (`str.split`, `in`, `str.lower`, `str.strip`,
   `str.startswith`, `str.replace`, slicing).  All are structurally
   recursive so that `decide`/`rfl` can evaluate them in the kernel. -/

/-- Split a character list at every character satisfying `p`, keeping
empty segments — the semantics of Python `s.split(sep)` for a
single-character separator (with `p` the equality test), and the basis
of whitespace splitting. -/
def splitPredList (p : Char → Bool) : List Char → List (List Char)
  | [] => [[]]
  | c :: cs =>
    let r := splitPredList p cs
    if p c then [] :: r
    else
      match r with
      | [] => [[c]]
      | seg :: rest => (c :: seg) :: rest

/-- Python `s.split('\n')`. -/
def splitLines (s : String) : List String :=
  (splitPredList (fun c => c == '\n') s.toList).map String.mk

/-- Python `s.split()` — split on whitespace runs, dropping empty pieces. -/
def pyWhitespaceSplit (s : String) : List String :=
  ((splitPredList Char.isWhitespace s.toList).map String.mk).filter (· ≠ "")

/-- `isPrefixChars pat l` : does `l` start with `pat`? -/
def isPrefixChars : List Char → List Char → Bool
  | [], _ => true
  | _ :: _, [] => false
  | a :: as, b :: bs => a == b && isPrefixChars as bs

/-- `containsChars pat l` : does `pat` occur contiguously in `l`?
The semantics of Python `pat in s`. -/
def containsChars (pat : List Char) : List Char → Bool
  | [] => isPrefixChars pat []
  | c :: cs => isPrefixChars pat (c :: cs) || containsChars pat cs

/-- Python `pat in s` on strings. -/
def containsStr (s pat : String) : Bool :=
  containsChars pat.toList s.toList

/-- Python `s.lower()` (ASCII case mapping, which covers every marker
string the code compares against). -/
def strToLower (s : String) : String :=
  ⟨s.toList.map Char.toLower⟩

/-- Python slicing `s[:n]`. -/
def strTake (s : String) (n : ℕ) : String :=
  ⟨s.toList.take n⟩

/-- Python `s.strip()` — remove leading and trailing whitespace. -/
def strTrim (s : String) : String :=
  ⟨((s.toList.dropWhile Char.isWhitespace).reverse.dropWhile
      Char.isWhitespace).reverse⟩

/-- Python `s.startswith(pat)`. -/
def startsWithStr (s pat : String) : Bool :=
  isPrefixChars pat.toList s.toList

/-- Fuelled worker for `replaceStr`: replaces every (leftmost,
non-overlapping) occurrence of `pat`.  The fuel, initialised to the
length of the list, dominates the number of steps because every step
consumes at least one character of the input. -/
def replaceFuel (pat rep : List Char) : ℕ → List Char → List Char
  | 0, l => l
  | _ + 1, [] => []
  | fuel + 1, c :: cs =>
    if pat ≠ [] && isPrefixChars pat (c :: cs) then
      rep ++ replaceFuel pat rep fuel ((c :: cs).drop pat.length)
    else
      c :: replaceFuel pat rep fuel cs

/-- Python `s.replace(pat, rep)` (all occurrences, left to right,
non-overlapping). -/
def replaceStr (s pat rep : String) : String :=
  ⟨replaceFuel pat.toList rep.toList s.toList.length s.toList⟩

/-- Numeric value of a string of decimal digit characters
(the semantics of Python `int` on an all-digit string). -/
def natOfDigits (l : List Char) : ℕ :=
  l.foldl (fun n c => n * 10 + (c.toNat - '0'.toNat)) 0

/- ===================== AccuracyReviewAgent score extraction =====================
   `backend/app/agents.py`, `AccuracyReviewAgent.review` lines 314-324. -/

/-- One line of the review response matches the score markers:
`'accuracy score' in line.lower() or 'score:' in line.lower()`. -/
def isScoreLine (l : String) : Bool :=
  containsStr (strToLower l) "accuracy score" || containsStr (strToLower l) "score:"

/-- `score_line[0]` when the filtered list is non-empty:
the first response line matching a score marker. -/
def firstScoreLine (s : String) : Option String :=
  ((splitLines s).filter isScoreLine).head?

/-- Python `word.replace('.', '')`. -/
def stripDots (w : String) : String :=
  ⟨w.toList.filter (fun c => c ≠ '.')⟩

/-- `word.replace('.', '').isdigit()` — non-empty and all decimal digits
once the dots are removed.  (Python `str.isdigit` also accepts some
non-ASCII digit code points; the model restricts to ASCII digits, which
is what the generated review text contains.) -/
def isNumericWord (w : String) : Bool :=
  stripDots w ≠ "" && (stripDots w).toList.all Char.isDigit

/-- Python `float(w)` for a word that passed the `isNumericWord` check
(so `w` consists of digits and dots): defined exactly when `w` has at
most one dot, in which case the value is the exact decimal it denotes.
Two or more dots make `float` raise `ValueError`, modelled as `none`. -/
def pyFloatQ (w : String) : Option ℚ :=
  match (splitPredList (fun c => c == '.') w.toList).map String.mk with
  | [a] => some ((natOfDigits a.toList : ℚ))
  | [a, b] => some ((natOfDigits a.toList : ℚ)
      + (natOfDigits b.toList : ℚ) / 10 ^ b.length)
  | _ => none

/-- Score taken from the first marker line: the first
whitespace-delimited numeric token, converted by `float`; any failure
(no such token — `IndexError` — or a multi-dot token — `ValueError`) is
caught by the surrounding `except` and yields 75.0. -/
def scoreOfLine (l : String) : ℚ :=
  match (pyWhitespaceSplit l).filter isNumericWord with
  | [] => 75
  | w :: _ => (pyFloatQ w).getD 75

/-- The score-extraction block of `AccuracyReviewAgent.review`
(agents.py lines 315-324): scan the response lines for a marker line;
no marker line (or any parse exception) defaults to 75.0. -/
def parseScore (reviewResult : String) : ℚ :=
  match firstScoreLine reviewResult with
  | none => 75
  | some l => scoreOfLine l

/- ===================== ContentGenerationAgent._parse_analysis =====================
   `backend/app/agents.py` lines 216-240. -/

/-- The parsed analysis record: title, structure type, structure count,
key concepts, with the defaults assigned at the top of
`_parse_analysis`. -/
structure Analysis where
  title : String
  structureType : String
  structureCount : ℕ
  keyConcepts : List String
deriving Repr, DecidableEq

/-- The `STRUCTURE_COUNT:` field body:
`int(''.join(filter(str.isdigit, count_text))) or 5`, with the
`except` fallback to 5 when no digit remains (`int('')` raises) and the
`or 5` fallback when the digits read as zero. -/
def parseCountText (countText : String) : ℕ :=
  let ds := countText.toList.filter Char.isDigit
  if ds.isEmpty then 5
  else
    let n := natOfDigits ds
    if n = 0 then 5 else n

/-- One iteration of the `for line in lines` loop of `_parse_analysis`:
strip the line, then dispatch on its prefix. -/
def parseAnalysisLine (a : Analysis) (rawLine : String) : Analysis :=
  let line := strTrim rawLine
  if startsWithStr line "TITLE:" then
    { a with title := strTrim (replaceStr line "TITLE:" "") }
  else if startsWithStr line "STRUCTURE_TYPE:" then
    { a with structureType := strTrim (replaceStr line "STRUCTURE_TYPE:" "") }
  else if startsWithStr line "STRUCTURE_COUNT:" then
    { a with structureCount :=
        parseCountText (strTrim (replaceStr line "STRUCTURE_COUNT:" "")) }
  else if startsWithStr line "KEY_CONCEPTS:" then
    { a with keyConcepts :=
        (((splitPredList (fun c => c == ';')
            (strTrim (replaceStr line "KEY_CONCEPTS:" "")).toList).map
              String.mk).map strTrim).filter (· ≠ "") }
  else a

/-- `ContentGenerationAgent._parse_analysis` (agents.py 216-240):
fold the line dispatcher over the lines of the analysis text, starting
from the documented defaults. -/
def parse_analysis (analysisText : String) : Analysis :=
  (splitLines analysisText).foldl parseAnalysisLine
    ⟨"Educational Content", "chapters", 5, []⟩

/- ===================== Structure generation =====================
   `backend/app/agents.py`, `ContentGenerationAgent._generate_custom_structure`
   lines 242-285, and `backend/app/template.py`,
   `EbookTemplate.get_default_structure` lines 93-176. -/

/-- One outline unit: the `title` / `description` / `subsections` keys
of the chapter dictionaries.  (The default structure's optional
`key_points`, `calculator` and `specifications` payloads are consumed
only by the markdown renderer, which no claim touches, and are elided.) -/
structure Chapter where
  title : String
  description : String
  subsections : List String
deriving Repr, DecidableEq

/-- `EbookTemplate.get_default_structure` (template.py 93-176): the
hardcoded 5-chapter reference outline. -/
def get_default_structure : List Chapter :=
  [ { title := "Introduction"
    , description := "Overview and fundamental concepts"
    , subsections := ["Basic Properties", "Manufacturing Process"] }
  , { title := "Core Concepts"
    , description := "Detailed exploration of key principles"
    , subsections := ["Mechanism of Action", "Clinical Applications"] }
  , { title := "Advanced Topics"
    , description := "In-depth analysis and specialized applications"
    , subsections := ["Quality Control", "Regulatory Considerations"] }
  , { title := "Practical Applications"
    , description := "Real-world implementations and case studies"
    , subsections := ["Case Studies", "Best Practices"] }
  , { title := "Assessment and Resources"
    , description := "Learning evaluation and additional materials"
    , subsections := ["Review Questions", "Further Reading"] } ]

/-- The loop body of the `"daily"` branch: the unit appended for `day`. -/
def dailyChapter (day : ℕ) : Chapter :=
  { title := "Day " ++ toString day
  , description := "Learning objectives and materials for Day " ++ toString day
  , subsections :=
      ["Learning Objectives", "Lecture Materials", "Practice Materials",
       "Assessment"] }

/-- The loop body of the `"weekly"` branch: the unit appended for `week`. -/
def weeklyChapter (week : ℕ) : Chapter :=
  { title := "Week " ++ toString week
  , description := "Week " ++ toString week ++ " curriculum and activities"
  , subsections :=
      ["Weekly Overview", "Key Topics", "Activities and Exercises",
       "Week Assessment"] }

/-- The loop body of the `"modular"` branch: the unit appended for `m`. -/
def modularChapter (m : ℕ) : Chapter :=
  { title := "Module " ++ toString m
  , description := "Module " ++ toString m ++ " learning content"
  , subsections :=
      ["Module Overview", "Core Content", "Practical Applications",
       "Module Assessment"] }

/-- `ContentGenerationAgent._generate_custom_structure` (agents.py
242-285).  Python `range(1, min(n + 1, 11))` enumerates
`1, ..., min(n, 10)`, i.e. `List.range' 1 (min n 10)`; likewise
`range(1, min(n + 1, 9))` enumerates `1, ..., min(n, 8)`.  The `title`
argument of the Python method is unused by the method body. -/
def generate_custom_structure (structureType : String) (structureCount : ℕ)
    (_title : String) : List Chapter :=
  if structureType = "daily" then
    (List.range' 1 (min structureCount 10)).map dailyChapter
  else if structureType = "weekly" then
    (List.range' 1 (min structureCount 8)).map weeklyChapter
  else if structureType = "modular" then
    (List.range' 1 (min structureCount 8)).map modularChapter
  else
    get_default_structure

/- ===================== Rate-limited LLM client =====================
   `backend/app/agents.py`, `LLMClient` lines 12-88.  Wall-clock
   readings (`time.time()`) are passed in as explicit rational
   parameters: `t` is the reading taken on entry to
   `_enforce_rate_limit`, `tQuota` the reading taken after a
   quota-induced sleep, `tEnd` the reading stored into
   `last_request_time` at the end.  `asyncio.sleep` only delays, so it
   has no effect beyond which clock values later readings return. -/

/-- The mutable counters of `LLMClient` relevant to rate limiting and
request sequencing (`last_request_time`, `request_count`,
`request_window_start`). -/
structure RLState where
  lastRequestTime : ℚ
  requestCount : ℕ
  windowStart : ℚ
deriving Repr, DecidableEq

/-- `LLMClient._enforce_rate_limit` (agents.py 22-46).  The
minimum-interval branch only sleeps, mutating no counter, and the loop
variable `current_time` is not refreshed afterwards, so the window test
uses the entry reading `t`.  A window older than 60 seconds resets the
counter; a full window (`request_count >= 20`) with positive remaining
time sleeps and then resets counter and window start to the post-sleep
reading `tQuota`.  Finally the counter is incremented — its new value is
the sequence number reported for this request. -/
def enforce_rate_limit (s : RLState) (t tQuota tEnd : ℚ) : RLState :=
  let s1 := if t - s.windowStart > 60
    then { s with requestCount := 0, windowStart := t } else s
  let s2 := if s1.requestCount ≥ 20 ∧ 60 - (t - s1.windowStart) > 0
    then { s1 with requestCount := 0, windowStart := tQuota } else s1
  { s2 with lastRequestTime := tEnd, requestCount := s2.requestCount + 1 }

/-- An event published through the notifier by `generate_completion`
(`llm_started` / `llm_completed` / `llm_error`), with the payload
fields the claims inspect: the request-kind tag, the reported request
sequence number, and the error text when present. -/
structure LLMEvent where
  eventType : String
  requestType : String
  requestCount : ℕ
  error : Option String
deriving Repr, DecidableEq

/-- `LLMClient.generate_completion` (agents.py 48-88).  The external
service call is the oracle `svc : Except String String` — `.ok text` is
a normal completion, `.error e` models the `except Exception as e`
branch with `str(e) = e`.  The whole service interaction sits inside
`try/except`, so the function is total: it returns the completion text
or the soft-error payload `"Error generating content: " ++ e`, never an
exception.  Events are published only when `current_session_id` is set
(the `if self.current_session_id:` guards).  The returned triple is
(result text, new client state, events emitted in order).  Elided as
claim-irrelevant: `max_tokens`, `model`, the `print` logging, and the
measured `request_duration` payload field. -/
def generate_completion (s : RLState) (session : Option String)
    (_prompt requestType : String) (svc : Except String String)
    (t tQuota tEnd : ℚ) : String × RLState × List LLMEvent :=
  let s' := enforce_rate_limit s t tQuota tEnd
  let started : List LLMEvent :=
    match session with
    | some _ => [⟨"llm_started", requestType, s'.requestCount, none⟩]
    | none => []
  match svc with
  | .ok text =>
    (text, s',
      started ++ (match session with
        | some _ => [⟨"llm_completed", requestType, s'.requestCount, none⟩]
        | none => []))
  | .error e =>
    ("Error generating content: " ++ e, s',
      started ++ (match session with
        | some _ => [⟨"llm_error", requestType, s'.requestCount, some e⟩]
        | none => []))

/- ===================== Event store, notifier, purge =====================
   `backend/app/event_notifier.py` lines 17-44 and
   `backend/app/database.py` lines 211-261. -/

/-- A row of the `processing_events` table: id, session, event type,
creation time, acknowledged flag.  The JSON payload column is elided —
no claim inspects it. -/
structure StoredEvent where
  id : String
  sessionId : String
  eventType : String
  createdAt : ℚ
  acknowledged : Bool
deriving Repr, DecidableEq

/-- `DatabaseManager.add_processing_event` (database.py 211-219): a
fallible INSERT.  The oracle `fail` models whether the database layer
raises (`some e` = an exception with text `e`); on success the row is
appended to the table. -/
def add_processing_event (store : List StoredEvent) (ev : StoredEvent)
    (fail : Option String) : Except String (List StoredEvent) :=
  match fail with
  | none => .ok (store ++ [ev])
  | some e => .error e

/-- `EventNotifier.notify` (event_notifier.py 17-44): build the event
row (fresh id `eventId`, creation time `ts`, acknowledged false) and
insert it inside `try/except Exception` — any storage failure is caught
and printed, and the method returns normally with the store unchanged.
The payload-enrichment step (adding `timestamp`/`session_id` keys to
the JSON payload) is elided with the payload column. -/
def notify (store : List StoredEvent) (sessionId eventType : String)
    (eventId : String) (ts : ℚ) (fail : Option String) : List StoredEvent :=
  match add_processing_event store ⟨eventId, sessionId, eventType, ts, false⟩ fail with
  | .ok store' => store'
  | .error _ => store

/-- `DatabaseManager.cleanup_old_events` (database.py 253-261):
`DELETE FROM processing_events WHERE acknowledged = TRUE AND
datetime(created_at) < datetime('now', '-{h} hours')`.  Time is
measured in hours; `now` is the database's current time.  The rows not
matched by the WHERE clause survive in table order. -/
def cleanup_old_events (store : List StoredEvent) (now : ℚ) (hoursOld : ℚ) :
    List StoredEvent :=
  store.filter fun e => !(e.acknowledged && decide (e.createdAt < now - hoursOld))

/- ===================== Pipeline orchestrator =====================
   `backend/app/agents.py`, `ContentPipeline.process_document`
   lines 402-508. -/

/-- A row of the `agent_logs` table as written by
`DatabaseManager.log_agent_activity`. -/
structure LogRow where
  agentType : String
  inputData : String
  outputData : String
  processingTime : ℚ
deriving Repr, DecidableEq

/-- A pipeline-level progress event as published by the orchestrator
through the notifier (`agent_started`, `agent_completed`,
`content_saved`, `processing_complete`), with the payload fields the
claims inspect: the agent the event names and, for completions, the
announced upcoming agent (`next_agent`). -/
structure PEventMsg where
  eventType : String
  agentType : Option String
  nextAgent : Option String
deriving Repr, DecidableEq

/-- The raw LLM responses received by the five stage agents during one
pipeline run, together with each stage's measured wall-clock duration.
Each field is the value the corresponding agent returns to the
orchestrator (`summary`, the rendered ebook `content`, the reviewer's
`corrections` text, `revised_content`, `enhanced_content`). -/
structure StageOutputs where
  summary : String
  ebookContent : String
  reviewText : String
  revisedContent : String
  enhancedContent : String
  tSum : ℚ
  tGen : ℚ
  tRev : ℚ
  tRevise : ℚ
  tEnh : ℚ

/-- The observable outcome of one `process_document` run: the returned
`results` dictionary (`summary`, `content`, `accuracy_score`), the
agent stages that actually executed in order, the `agent_logs` rows
appended, and the orchestrator-level progress events published. -/
structure PipelineRun where
  summary : String
  content : String
  accuracyScore : ℚ
  stagesRun : List String
  logs : List LogRow
  events : List PEventMsg

/-- `ContentPipeline.process_document` (agents.py 402-508), stage by
stage in source order.  `sessionId` is the optional session identifier;
every log/notify call in the source is guarded by `if session_id:`.
The reviewer's score is parsed from the review response by the
`AccuracyReviewAgent.review` extraction (`parseScore`); Revise runs
exactly when that score is `< 85` and overwrites `results['content']`;
Enhance runs exactly when requested and overwrites it again.  Note the
source logs the enhancer with `results['content'][:500]` as input
*after* already overwriting `results['content']` with the enhanced
text, so both logged fields are the enhanced content.  Elided as
claim-irrelevant: the LLM-level events emitted inside each agent
(modelled separately on `generate_completion`), the local
`content_saver` debug files, the reviewer-log input string formatting
(`"Score: " ++ toString score` stands for the Python f-string), and
the event message texts. -/
def process_document (document _userPrompt : String) (enhance : Bool)
    (sessionId : Option String) (o : StageOutputs) : PipelineRun :=
  let hasS := sessionId.isSome
  -- Step 1: Summarize
  let events1 : List PEventMsg :=
    if hasS then [⟨"agent_started", some "summarizer", none⟩] else []
  let events2 := events1 ++
    (if hasS then [⟨"agent_completed", some "summarizer", some "generator"⟩] else [])
  let logs1 : List LogRow :=
    if hasS then
      [⟨"summarizer", strTake document 500, strTake o.summary 500, o.tSum⟩]
    else []
  -- Step 2: Generate ebook
  let events3 := events2 ++
    (if hasS then [⟨"agent_started", some "generator", none⟩] else [])
  let events4 := events3 ++
    (if hasS then [⟨"agent_completed", some "generator", some "reviewer"⟩] else [])
  let logs2 := logs1 ++
    (if hasS then
      [⟨"generator", strTake o.summary 500, strTake o.ebookContent 500, o.tGen⟩]
     else [])
  let events5 := events4 ++
    (if hasS then [⟨"content_saved", none, none⟩] else [])
  -- Step 3: Review for accuracy
  let score := parseScore o.reviewText
  let logs3 := logs2 ++
    (if hasS then
      [⟨"reviewer", "Score: " ++ toString score, strTake o.reviewText 500, o.tRev⟩]
     else [])
  -- Step 4: Apply corrections if needed
  let content4 := if score < 85 then o.revisedContent else o.ebookContent
  let logs4 := logs3 ++
    (if score < 85 then
      (if hasS then
        [⟨"revisor", strTake o.reviewText 500, strTake o.revisedContent 500,
          o.tRevise⟩]
       else [])
     else [])
  let stages4 : List String := if score < 85 then ["revisor"] else []
  -- Step 5: Enhance if requested
  let content5 := if enhance then o.enhancedContent else content4
  let logs5 := logs4 ++
    (if enhance then
      (if hasS then
        [⟨"enhancer", strTake o.enhancedContent 500, strTake o.enhancedContent 500,
          o.tEnh⟩]
       else [])
     else [])
  let stages5 : List String := if enhance then ["enhancer"] else []
  -- Notify processing complete
  let events6 := events5 ++
    (if hasS then [⟨"processing_complete", none, none⟩] else [])
  { summary := o.summary
  , content := content5
  , accuracyScore := score
  , stagesRun := ["summarizer", "generator", "reviewer"] ++ stages4 ++ stages5
  , logs := logs5
  , events := events6 }

/- ===================== Asynchronous processing entry point =====================
   `backend/app/main.py`, `process_document_async` lines 117-132. -/

/-- A row of the `generated_content` table as written by
`DatabaseManager.save_generated_content` for this run. -/
structure ContentRow where
  contentId : String
  docId : String
  contentType : String
  userPrompt : String
  content : String
  accuracyScore : ℚ
deriving DecidableEq

/-- The persistent state `process_document_async` touches: this
session's status row, the `generated_content` table, and the
processing-event store (only the error event it may append is
modelled, as a `PEventMsg` of type `"error"`). -/
structure AsyncState where
  sessionStatus : String
  contentRows : List ContentRow
  events : List PEventMsg

/-- `process_document_async` (main.py 117-132).  The whole body sits in
one `try/except Exception`: on a normal pipeline return the generated
content row is saved and the session status set to `"completed"`; on
any exception escaping the pipeline the status is set to `"error"` and
a single `"error"` progress event is emitted (`notify_error`), with no
content row written.  `outcome` is the pipeline call's result —
`.ok run` a normal return, `.error e` an escaped exception with text
`e`.  The persistence collaborators themselves (status update, row
insert, event insert) are modelled as non-failing, as in the spec's
interface contract. -/
def process_document_async (st : AsyncState) (contentId docId userPrompt : String)
    (outcome : Except String PipelineRun) : AsyncState :=
  match outcome with
  | .ok run =>
    { st with
        contentRows := st.contentRows ++
          [⟨contentId, docId, "ebook", userPrompt, run.content, run.accuracyScore⟩]
      , sessionStatus := "completed" }
  | .error _ =>
    { st with
        sessionStatus := "error"
      , events := st.events ++ [⟨"error", none, none⟩] }

/-- Stage outputs of a run whose review response parses to score 90
(no revision), used to instantiate universally quantified theorems. -/
def sampleOutputsHigh : StageOutputs :=
  ⟨"the summary", "the ebook", "Score: 90", "the revised ebook",
   "the enhanced ebook", 1, 2, 3, 4, 5⟩

/-- Stage outputs of a run whose review response parses to score 10
(revision triggered), used to instantiate universally quantified
theorems. -/
def sampleOutputsLow : StageOutputs :=
  ⟨"the summary", "the ebook", "Score: 10", "the revised ebook",
   "the enhanced ebook", 1, 2, 3, 4, 5⟩

/- ===================== Helper lemmas ===================== -/

theorem process_document_stagesRun_eq (d u : String) (e : Bool)
    (sid : Option String) (o : StageOutputs) :
    (process_document d u e sid o).stagesRun
      = ["summarizer", "generator", "reviewer"]
        ++ (if parseScore o.reviewText < 85 then ["revisor"] else [])
        ++ (if e then ["enhancer"] else []) := rfl

theorem process_document_content_eq (d u : String) (e : Bool)
    (sid : Option String) (o : StageOutputs) :
    (process_document d u e sid o).content
      = if e then o.enhancedContent
        else if parseScore o.reviewText < 85 then o.revisedContent
        else o.ebookContent := rfl

theorem process_document_logs_eq (d u : String) (e : Bool)
    (sid : Option String) (o : StageOutputs) :
    (process_document d u e sid o).logs
      = (if sid.isSome then
          [⟨"summarizer", strTake d 500, strTake o.summary 500, o.tSum⟩] else [])
        ++ (if sid.isSome then
          [⟨"generator", strTake o.summary 500, strTake o.ebookContent 500, o.tGen⟩]
          else [])
        ++ (if sid.isSome then
          [⟨"reviewer", "Score: " ++ toString (parseScore o.reviewText),
            strTake o.reviewText 500, o.tRev⟩] else [])
        ++ (if parseScore o.reviewText < 85 then
            (if sid.isSome then
              [⟨"revisor", strTake o.reviewText 500, strTake o.revisedContent 500,
                o.tRevise⟩] else [])
           else [])
        ++ (if e then
            (if sid.isSome then
              [⟨"enhancer", strTake o.enhancedContent 500,
                strTake o.enhancedContent 500, o.tEnh⟩] else [])
           else []) := rfl

theorem process_document_events_eq (d u : String) (e : Bool)
    (sid : Option String) (o : StageOutputs) :
    (process_document d u e sid o).events
      = (if sid.isSome then [⟨"agent_started", some "summarizer", none⟩] else [])
        ++ (if sid.isSome then
          [⟨"agent_completed", some "summarizer", some "generator"⟩] else [])
        ++ (if sid.isSome then [⟨"agent_started", some "generator", none⟩] else [])
        ++ (if sid.isSome then
          [⟨"agent_completed", some "generator", some "reviewer"⟩] else [])
        ++ (if sid.isSome then [⟨"content_saved", none, none⟩] else [])
        ++ (if sid.isSome then [⟨"processing_complete", none, none⟩] else []) := rfl

theorem gcs_daily_eq (n : ℕ) (t : String) :
    generate_custom_structure "daily" n t
      = (List.range' 1 (min n 10)).map dailyChapter := rfl

theorem gcs_weekly_eq (n : ℕ) (t : String) :
    generate_custom_structure "weekly" n t
      = (List.range' 1 (min n 8)).map weeklyChapter := rfl

theorem gcs_modular_eq (n : ℕ) (t : String) :
    generate_custom_structure "modular" n t
      = (List.range' 1 (min n 8)).map modularChapter := rfl

theorem subsections_of_mem_map {α : Type} (f : α → Chapter) (l : List α)
    (subs : List String) (hf : ∀ x, (f x).subsections = subs) :
    ∀ c ∈ l.map f, c.subsections = subs := by
  intro c hc
  obtain ⟨x, -, rfl⟩ := List.mem_map.mp hc
  exact hf x

/- ===================== Claim theorems ===================== -/

/-- C5: score extraction of `AccuracyReviewAgent.review` — when the
first response line matching the 'accuracy score' / 'score:' markers is
exactly `"Score: 42.5"`, the parsed score is 42.5; when no response
line contains either marker, the parsed score is exactly 75.0. -/
theorem score_extraction (s : String) :
    (firstScoreLine s = some "Score: 42.5" → parseScore s = 42.5) ∧
    ((∀ l ∈ splitLines s, isScoreLine l = false) → parseScore s = 75) := by
  constructor
  · intro h
    have h1 : parseScore s = scoreOfLine "Score: 42.5" := by
      unfold parseScore; rw [h]
    have h2 : scoreOfLine "Score: 42.5"
        = (natOfDigits ['4', '2'] : ℚ) + (natOfDigits ['5'] : ℚ) / 10 ^ (1 : ℕ) := rfl
    have e1 : natOfDigits ['4', '2'] = 42 := rfl
    have e2 : natOfDigits ['5'] = 5 := rfl
    rw [h1, h2, e1, e2]
    norm_num
  · intro h
    have h0 : (splitLines s).filter isScoreLine = [] :=
      List.filter_eq_nil_iff.mpr (by simpa using h)
    unfold parseScore firstScoreLine
    rw [h0]
    rfl

/-- C5 witness: a review text whose first marker line is
`"Score: 42.5"` parses to 42.5, and a review text with no marker line
parses to 75. -/
theorem score_extraction_witness :
    parseScore "Overall assessment\nScore: 42.5\nNo factual errors" = 42.5 ∧
    parseScore "looks fine\nno rating given" = 75 :=
  ⟨(score_extraction "Overall assessment\nScore: 42.5\nNo factual errors").1 (by decide),
   (score_extraction "looks fine\nno rating given").2 (by decide)⟩

/-- C6: unit-count extraction of
`ContentGenerationAgent._parse_analysis` — the field line
`STRUCTURE_COUNT: 7 modules` parses to 7 (non-digits stripped); a field
with no digits, and a field whose digits read as zero, fall back to 5. -/
theorem count_extraction :
    (parse_analysis "STRUCTURE_COUNT: 7 modules").structureCount = 7 ∧
    (parse_analysis "STRUCTURE_COUNT: abc").structureCount = 5 ∧
    (∀ ct : String, ct.toList.filter Char.isDigit = [] → parseCountText ct = 5) ∧
    (∀ ct : String, natOfDigits (ct.toList.filter Char.isDigit) = 0 →
      parseCountText ct = 5) := by
  refine ⟨by decide, by decide, ?_, ?_⟩
  · intro ct h
    show (if (ct.toList.filter Char.isDigit).isEmpty then 5
          else if natOfDigits (ct.toList.filter Char.isDigit) = 0 then 5
          else natOfDigits (ct.toList.filter Char.isDigit)) = 5
    rw [h]
    rfl
  · intro ct h
    show (if (ct.toList.filter Char.isDigit).isEmpty then 5
          else if natOfDigits (ct.toList.filter Char.isDigit) = 0 then 5
          else natOfDigits (ct.toList.filter Char.isDigit)) = 5
    by_cases he : (ct.toList.filter Char.isDigit).isEmpty
    · rw [if_pos he]
    · rw [if_neg he, if_pos h]

/-- C6 witness: a digit-free count field and an all-zero count field
both fall back to 5. -/
theorem count_extraction_witness :
    parseCountText "abc" = 5 ∧ parseCountText "000 units" = 5 :=
  ⟨count_extraction.2.2.1 "abc" rfl, count_extraction.2.2.2 "000 units" rfl⟩

/-- C7: `_generate_custom_structure` — kind "daily" yields exactly
`min n 10` units titled "Day 1".."Day min(n,10)", kinds "weekly" and
"modular" yield exactly `min n 8` units, each unit carrying its kind's
4 fixed subsection names; any other kind yields the hardcoded
5-chapter default outline regardless of `n`. -/
theorem custom_structure_capping (n : ℕ) (title : String) :
    ((generate_custom_structure "daily" n title).length = min n 10) ∧
    ((generate_custom_structure "daily" n title).map Chapter.title
      = (List.range' 1 (min n 10)).map (fun d => "Day " ++ toString d)) ∧
    (∀ c ∈ generate_custom_structure "daily" n title,
      c.subsections = ["Learning Objectives", "Lecture Materials",
        "Practice Materials", "Assessment"]) ∧
    ((generate_custom_structure "weekly" n title).length = min n 8) ∧
    (∀ c ∈ generate_custom_structure "weekly" n title,
      c.subsections = ["Weekly Overview", "Key Topics",
        "Activities and Exercises", "Week Assessment"]) ∧
    ((generate_custom_structure "modular" n title).length = min n 8) ∧
    (∀ c ∈ generate_custom_structure "modular" n title,
      c.subsections = ["Module Overview", "Core Content",
        "Practical Applications", "Module Assessment"]) ∧
    (∀ k : String, k ≠ "daily" → k ≠ "weekly" → k ≠ "modular" →
      generate_custom_structure k n title = get_default_structure) ∧
    get_default_structure.length = 5 := by
  refine ⟨?_, ?_, ?_, ?_, ?_, ?_, ?_, ?_, rfl⟩
  · rw [gcs_daily_eq]
    simp [List.length_range']
  · rw [gcs_daily_eq, List.map_map]
    rfl
  · rw [gcs_daily_eq]
    exact subsections_of_mem_map dailyChapter _ _ (fun x => rfl)
  · rw [gcs_weekly_eq]
    simp [List.length_range']
  · rw [gcs_weekly_eq]
    exact subsections_of_mem_map weeklyChapter _ _ (fun x => rfl)
  · rw [gcs_modular_eq]
    simp [List.length_range']
  · rw [gcs_modular_eq]
    exact subsections_of_mem_map modularChapter _ _ (fun x => rfl)
  · intro k h1 h2 h3
    simp [generate_custom_structure, h1, h2, h3]

/-- C7 witness: at count 50 the daily structure caps at 10 units, the
weekly structure at 8, and the kind "chapters" yields the 5-chapter
default outline. -/
theorem custom_structure_capping_witness :
    (generate_custom_structure "daily" 50 "t").length = min 50 10 ∧
    (generate_custom_structure "weekly" 50 "t").length = min 50 8 ∧
    generate_custom_structure "chapters" 50 "t" = get_default_structure :=
  ⟨(custom_structure_capping 50 "t").1,
   (custom_structure_capping 50 "t").2.2.2.1,
   (custom_structure_capping 50 "t").2.2.2.2.2.2.2.1 "chapters"
     (by decide) (by decide) (by decide)⟩

/-- C9: `DatabaseManager.cleanup_old_events` removes only events that
are both already acknowledged and older than the retention window;
every unacknowledged event, regardless of age, and every acknowledged
event inside the window survives unchanged (the result is a sublist of
the store, so surviving rows keep their order and multiplicity). -/
theorem cleanup_only_prunes_acknowledged_old (store : List StoredEvent)
    (now hoursOld : ℚ) :
    ((cleanup_old_events store now hoursOld).Sublist store) ∧
    (∀ e ∈ store, e.acknowledged = false → e ∈ cleanup_old_events store now hoursOld) ∧
    (∀ e ∈ store, ¬ e.createdAt < now - hoursOld →
      e ∈ cleanup_old_events store now hoursOld) ∧
    (∀ e ∈ store, e ∉ cleanup_old_events store now hoursOld →
      e.acknowledged = true ∧ e.createdAt < now - hoursOld) := by
  refine ⟨List.filter_sublist _, ?_, ?_, ?_⟩
  · intro e he hack
    exact List.mem_filter.mpr ⟨he, by simp [hack]⟩
  · intro e he hc
    exact List.mem_filter.mpr ⟨he, by simp [hc]⟩
  · intro e he hne
    by_cases hack : e.acknowledged
    · by_cases hc : e.createdAt < now - hoursOld
      · exact ⟨hack, hc⟩
      · exact absurd (List.mem_filter.mpr ⟨he, by simp [hc]⟩) hne
    · exact absurd (List.mem_filter.mpr ⟨he, by simp [Bool.not_eq_true] at hack ⊢; simp [hack]⟩) hne

/-- C9 witness: an unacknowledged event far older than the window and
an acknowledged event inside the window both survive a purge. -/
theorem cleanup_only_prunes_acknowledged_old_witness :
    (⟨"e1", "s", "llm_started", 0, false⟩ : StoredEvent) ∈
      cleanup_old_events
        [⟨"e1", "s", "llm_started", 0, false⟩, ⟨"e2", "s", "llm_started", 100, true⟩]
        101 24 ∧
    (⟨"e2", "s", "llm_started", 100, true⟩ : StoredEvent) ∈
      cleanup_old_events
        [⟨"e1", "s", "llm_started", 0, false⟩, ⟨"e2", "s", "llm_started", 100, true⟩]
        101 24 :=
  ⟨(cleanup_only_prunes_acknowledged_old _ 101 24).2.1 _ (by simp) rfl,
   (cleanup_only_prunes_acknowledged_old _ 101 24).2.2.1 _ (by simp) (by norm_num)⟩

/-- C10 (implicit): `EventNotifier.notify` absorbs storage failures —
for every store, event and storage behaviour it returns normally (the
result is one of the two normal outcomes), appending the event when the
insert succeeds and leaving the store unchanged (event silently
dropped) when the insert raises. -/
theorem notify_total_on_storage_failure (store : List StoredEvent)
    (sid et eid : String) (ts : ℚ) (fail : Option String) :
    (notify store sid et eid ts fail = store ++ [⟨eid, sid, et, ts, false⟩] ∨
      notify store sid et eid ts fail = store) ∧
    (fail = none → notify store sid et eid ts fail = store ++ [⟨eid, sid, et, ts, false⟩]) ∧
    (∀ e, fail = some e → notify store sid et eid ts fail = store) := by
  cases fail <;> simp [notify, add_processing_event]

/-- C1: in `ContentPipeline.process_document` the Revise stage runs if
and only if the parsed review score is strictly below 85; when the
score is at least 85 no `revisor` agent-activity-log row is appended;
when Revise runs it runs exactly once, the Review stage is not re-run,
and the revised output replaces the working content (subject only to
the later optional Enhance overwrite). -/
theorem revise_iff_score_below_85 (d u : String) (e : Bool)
    (sid : Option String) (o : StageOutputs) :
    (("revisor" ∈ (process_document d u e sid o).stagesRun) ↔
      parseScore o.reviewText < 85) ∧
    ((process_document d u e sid o).stagesRun.count "revisor" ≤ 1) ∧
    ((process_document d u e sid o).stagesRun.count "reviewer" = 1) ∧
    (¬ parseScore o.reviewText < 85 →
      (process_document d u e sid o).logs.filter
        (fun row => row.agentType == "revisor") = []) ∧
    (parseScore o.reviewText < 85 →
      (process_document d u e sid o).content
        = if e then o.enhancedContent else o.revisedContent) := by
  by_cases hs : parseScore o.reviewText < 85
  · refine ⟨?_, ?_, ?_, fun hn => absurd hs hn, fun _ => ?_⟩
    · rw [process_document_stagesRun_eq, if_pos hs]
      cases e <;> simp [hs]
    · rw [process_document_stagesRun_eq, if_pos hs]
      cases e <;> decide
    · rw [process_document_stagesRun_eq, if_pos hs]
      cases e <;> decide
    · rw [process_document_content_eq]
      cases e
      · rw [if_pos hs]
      · rfl
  · refine ⟨?_, ?_, ?_, fun _ => ?_, fun hy => absurd hy hs⟩
    · rw [process_document_stagesRun_eq, if_neg hs]
      cases e <;> simp [hs]
    · rw [process_document_stagesRun_eq, if_neg hs]
      cases e <;> decide
    · rw [process_document_stagesRun_eq, if_neg hs]
      cases e <;> decide
    · rw [process_document_logs_eq, if_neg hs]
      cases sid <;> cases e <;> rfl

/-- C1 witness: a run whose review parses to 90 appends no revisor log
row and leaves "revisor" out of the executed stages; a run whose review
parses to 10 executes "revisor". -/
theorem revise_iff_score_below_85_witness :
    ((process_document "doc" "up" true (some "sess") sampleOutputsHigh).logs.filter
        (fun row => row.agentType == "revisor") = []) ∧
    ¬ ("revisor" ∈
        (process_document "doc" "up" true (some "sess") sampleOutputsHigh).stagesRun) ∧
    ("revisor" ∈
        (process_document "doc" "up" true (some "sess") sampleOutputsLow).stagesRun) :=
  ⟨(revise_iff_score_below_85 "doc" "up" true (some "sess") sampleOutputsHigh).2.2.2.1
      (by decide),
   fun hmem =>
     absurd ((revise_iff_score_below_85 "doc" "up" true (some "sess")
        sampleOutputsHigh).1.mp hmem) (by decide),
   (revise_iff_score_below_85 "doc" "up" true (some "sess") sampleOutputsLow).1.mpr
      (by decide)⟩

/-- C2 counterexample: the claim says every executed stage (with a
session present) gets paired start/complete progress events, but in a
concrete run the Review stage executes while the events contain no
`agent_started` (nor `agent_completed`) entry naming "reviewer". -/
theorem stage_events_counterexample :
    ("reviewer" ∈
      (process_document "doc" "up" true (some "sess") sampleOutputsLow).stagesRun) ∧
    ("revisor" ∈
      (process_document "doc" "up" true (some "sess") sampleOutputsLow).stagesRun) ∧
    ((process_document "doc" "up" true (some "sess") sampleOutputsLow).events.filter
      (fun ev => ev.agentType == some "reviewer" || ev.agentType == some "revisor"
        || ev.agentType == some "enhancer") = []) := by
  refine ⟨by decide, by decide, by decide⟩

/-- C2 amended: with a session identifier present, every executed stage
appends exactly one audit log entry, in execution order, with the
stage's output truncated to 500 characters; but paired start/complete
progress events are emitted only around the Summarize and Generate
stages (the completion event naming the upcoming stage) — Review,
Revise and Enhance emit no stage-level progress events. -/
theorem stage_logging_amended (d u : String) (e : Bool) (s : String)
    (o : StageOutputs) :
    ((process_document d u e (some s) o).logs.map (fun row => row.agentType)
      = (process_document d u e (some s) o).stagesRun) ∧
    (∀ row ∈ (process_document d u e (some s) o).logs,
      row.outputData.toList.length ≤ 500) ∧
    ((process_document d u e (some s) o).events.filter
        (fun ev => ev.eventType == "agent_started"
          || ev.eventType == "agent_completed")
      = [⟨"agent_started", some "summarizer", none⟩,
         ⟨"agent_completed", some "summarizer", some "generator"⟩,
         ⟨"agent_started", some "generator", none⟩,
         ⟨"agent_completed", some "generator", some "reviewer"⟩]) := by
  refine ⟨?_, ?_, ?_⟩
  · by_cases hs : parseScore o.reviewText < 85 <;> cases e <;>
      simp [process_document_logs_eq, process_document_stagesRun_eq, hs]
  · rw [process_document_logs_eq]
    by_cases hs : parseScore o.reviewText < 85 <;> cases e <;>
      simp [hs, strTake, String.toList, List.length_take]
  · rw [process_document_events_eq]
    rfl

/-- C2 amended witness: a concrete run with a session id has one log
row per executed stage in order and exactly the four
summarizer/generator start/complete events. -/
theorem stage_logging_amended_witness :
    ((process_document "doc" "up" true (some "sess") sampleOutputsLow).logs.map
        (fun row => row.agentType)
      = (process_document "doc" "up" true (some "sess") sampleOutputsLow).stagesRun) ∧
    ((process_document "doc" "up" true (some "sess") sampleOutputsLow).events.filter
        (fun ev => ev.eventType == "agent_started"
          || ev.eventType == "agent_completed")
      = [⟨"agent_started", some "summarizer", none⟩,
         ⟨"agent_completed", some "summarizer", some "generator"⟩,
         ⟨"agent_started", some "generator", none⟩,
         ⟨"agent_completed", some "generator", some "reviewer"⟩]) :=
  ⟨(stage_logging_amended "doc" "up" true "sess" sampleOutputsLow).1,
   (stage_logging_amended "doc" "up" true "sess" sampleOutputsLow).2.2⟩

/-- C3 counterexample: the claim says a failing external call always
emits an error event; but when no session identifier is set on the
client, a failing call returns the soft-error payload while emitting no
event at all. -/
theorem soft_error_counterexample :
    ((generate_completion ⟨0, 0, 0⟩ none "p" "general" (.error "boom") 5 0 5).1
      = "Error generating content: boom") ∧
    ((generate_completion ⟨0, 0, 0⟩ none "p" "general" (.error "boom") 5 0 5).2.2
      = []) := by
  exact ⟨rfl, rfl⟩

/-- C3 amended: `generate_completion` never propagates a service
failure — for every service behaviour the call returns normally, with
the service text on success and the payload
`"Error generating content: " ++ e` on failure; on failure it emits an
`llm_error` event exactly when a session identifier is set on the
client, and it emits no event at all when none is set. -/
theorem soft_error_amended (s : RLState) (session : Option String)
    (p rt : String) (svc : Except String String) (t tq te : ℚ) :
    (∀ txt, svc = .ok txt →
      (generate_completion s session p rt svc t tq te).1 = txt) ∧
    (∀ e, svc = .error e →
      (generate_completion s session p rt svc t tq te).1
        = "Error generating content: " ++ e) ∧
    (∀ e sess, svc = .error e → session = some sess →
      (generate_completion s session p rt svc t tq te).2.2.filter
          (fun ev => ev.eventType == "llm_error")
        = [⟨"llm_error", rt,
            (enforce_rate_limit s t tq te).requestCount, some e⟩]) ∧
    (session = none →
      (generate_completion s session p rt svc t tq te).2.2 = []) := by
  cases svc <;> cases session <;>
    simp [generate_completion]

/-- C3 amended witness: a concrete failing call with a session set
returns the payload and emits one `llm_error` event carrying the
failure text. -/
theorem soft_error_amended_witness :
    ((generate_completion ⟨0, 0, 0⟩ (some "sess") "p" "general"
        (.error "boom") 5 0 5).1 = "Error generating content: boom") ∧
    ((generate_completion ⟨0, 0, 0⟩ (some "sess") "p" "general"
        (.error "boom") 5 0 5).2.2.filter (fun ev => ev.eventType == "llm_error")
      = [⟨"llm_error", "general",
          (enforce_rate_limit ⟨0, 0, 0⟩ 5 0 5).requestCount, some "boom"⟩]) :=
  ⟨(soft_error_amended ⟨0, 0, 0⟩ (some "sess") "p" "general"
      (.error "boom") 5 0 5).2.1 "boom" rfl,
   (soft_error_amended ⟨0, 0, 0⟩ (some "sess") "p" "general"
      (.error "boom") 5 0 5).2.2.1 "boom" "sess" rfl rfl⟩

/-- C4 counterexample: the request sequence number reported in emitted
events is not monotonically increasing across successive calls on one
client — after two calls report 1 and 2, a third call entering after
the 60-second window has elapsed resets the counter and reports 1
again. -/
theorem request_count_counterexample :
    ((generate_completion ⟨0, 0, 0⟩ (some "sess") "p" "general" (.ok "a") 5 0 5).2.1
      = ⟨5, 1, 0⟩) ∧
    ((generate_completion ⟨5, 1, 0⟩ (some "sess") "p" "general" (.ok "b") 10 0 10).2.2
      = [⟨"llm_started", "general", 2, none⟩,
         ⟨"llm_completed", "general", 2, none⟩]) ∧
    ((generate_completion ⟨10, 2, 0⟩ (some "sess") "p" "general" (.ok "c") 70 0 70).2.2
      = [⟨"llm_started", "general", 1, none⟩,
         ⟨"llm_completed", "general", 1, none⟩]) ∧
    ¬ (2 : ℕ) ≤ 1 := by
  refine ⟨?_, ?_, ?_, by decide⟩ <;>
    norm_num [generate_completion, enforce_rate_limit]

/-- C4 amended: the reported request sequence number increases by
exactly one on each call made while the current 60-second window has
not elapsed and the per-window ceiling (20) has not been reached —
within one window it is strictly increasing, and every event the call
emits reports that number; it resets when a new window starts. -/
theorem request_count_within_window (s : RLState) (session : Option String)
    (p rt : String) (svc : Except String String) (t tq te : ℚ)
    (hwin : t - s.windowStart ≤ 60) (hceil : s.requestCount < 20) :
    ((generate_completion s session p rt svc t tq te).2.1.requestCount
      = s.requestCount + 1) ∧
    (∀ ev ∈ (generate_completion s session p rt svc t tq te).2.2,
      ev.requestCount = s.requestCount + 1) := by
  have h1 : ¬ (t - s.windowStart > 60) := not_lt.mpr hwin
  have h2 : ¬ (20 ≤ s.requestCount ∧ t - s.windowStart < 60) :=
    fun hand => absurd hand.1 (not_le.mpr hceil)
  have hst : enforce_rate_limit s t tq te
      = { s with lastRequestTime := te, requestCount := s.requestCount + 1 } := by
    simp [enforce_rate_limit, h1, h2]
  cases svc <;> cases session <;>
    simp [generate_completion, hst]

/-- C4 amended witness: a first call on a fresh client within the
window reports sequence number 1 on its state and on every emitted
event. -/
theorem request_count_within_window_witness :
    ((generate_completion ⟨0, 0, 0⟩ (some "sess") "p" "general" (.ok "a")
        5 0 5).2.1.requestCount = 0 + 1) ∧
    (∀ ev ∈ (generate_completion ⟨0, 0, 0⟩ (some "sess") "p" "general" (.ok "a")
        5 0 5).2.2, ev.requestCount = 0 + 1) :=
  request_count_within_window ⟨0, 0, 0⟩ (some "sess") "p" "general" (.ok "a")
    5 0 5 (by norm_num) (by norm_num)

/-- C8: `process_document_async` always leaves the session in exactly
one terminal status — "completed" on a normal pipeline return (with the
generated-content row persisted and no error event), "error" when an
exception escapes the pipeline (with no content row persisted and a
single error progress event appended) — never "processing". -/
theorem async_terminal_status (st : AsyncState) (cid did up : String)
    (outcome : Except String PipelineRun) :
    ((process_document_async st cid did up outcome).sessionStatus = "completed" ∨
      (process_document_async st cid did up outcome).sessionStatus = "error") ∧
    ((process_document_async st cid did up outcome).sessionStatus ≠ "processing") ∧
    (∀ run, outcome = .ok run →
      (process_document_async st cid did up outcome).sessionStatus = "completed" ∧
      (process_document_async st cid did up outcome).contentRows
        = st.contentRows ++ [⟨cid, did, "ebook", up, run.content, run.accuracyScore⟩] ∧
      (process_document_async st cid did up outcome).events = st.events) ∧
    (∀ e, outcome = .error e →
      (process_document_async st cid did up outcome).sessionStatus = "error" ∧
      (process_document_async st cid did up outcome).contentRows = st.contentRows ∧
      (process_document_async st cid did up outcome).events
        = st.events ++ [⟨"error", none, none⟩]) := by
  cases outcome <;> simp [process_document_async]

/-- C8 witness: a concrete failing run flips the status to "error",
persists no content row, and appends one error event; a concrete
successful run flips it to "completed". -/
theorem async_terminal_status_witness :
    ((process_document_async ⟨"processing", [], []⟩ "c" "d" "u"
        (.error "boom")).sessionStatus = "error" ∧
      (process_document_async ⟨"processing", [], []⟩ "c" "d" "u"
        (.error "boom")).contentRows = [] ∧
      (process_document_async ⟨"processing", [], []⟩ "c" "d" "u"
        (.error "boom")).events = [] ++ [⟨"error", none, none⟩]) ∧
    ((process_document_async ⟨"processing", [], []⟩ "c" "d" "u"
        (.ok (process_document "doc" "up" false none sampleOutputsHigh))).sessionStatus
      = "completed") :=
  ⟨(async_terminal_status ⟨"processing", [], []⟩ "c" "d" "u"
      (.error "boom")).2.2.2 "boom" rfl,
   ((async_terminal_status ⟨"processing", [], []⟩ "c" "d" "u"
      (.ok (process_document "doc" "up" false none sampleOutputsHigh))).2.2.1
      (process_document "doc" "up" false none sampleOutputsHigh) rfl).1⟩

/-- C10 witness: a concrete failing insert leaves the store unchanged,
and a concrete succeeding insert appends the event. -/
theorem notify_total_on_storage_failure_witness :
    notify [] "sess" "agent_started" "id1" 7 (some "disk full") = [] ∧
    notify [] "sess" "agent_started" "id1" 7 none
      = [⟨"id1", "sess", "agent_started", 7, false⟩] :=
  ⟨(notify_total_on_storage_failure [] "sess" "agent_started" "id1" 7
      (some "disk full")).2.2 "disk full" rfl,
   (notify_total_on_storage_failure [] "sess" "agent_started" "id1" 7 none).2.1 rfl⟩
